import Mathlib

/-!
Verification of the ctop-web metrics-normalization pipeline.

The backend (`server/index.js`) is a thin translation layer over the Docker
Engine API.  Its pure computational core — unit formatting, CPU / memory /
network / block-IO metric extraction, env parsing, and the per-container
payload builder — is embedded below as executable Lean definitions, translated
statement-by-statement from the JavaScript source.  The client's rolling
metric-history update (`client/src/App.tsx`) is embedded as well.

Modelling conventions:
* JavaScript numbers are modelled by exact arithmetic (`Nat`/`Int` for engine
  counters, `ℚ` for derived quotients).  `x.toFixed(d)` is modelled by exact
  round-half-up at `d` decimal digits, which is the ECMAScript rounding rule
  ("if there are two such n, pick the larger n") for the nonnegative values
  that occur here.
* A JSON field that may be absent is an `Option`; JavaScript truthiness tests
  on numbers (`x || y`, `x ? a : b`) are translated explicitly, so `0` and the
  empty string count as falsy exactly as in the source.
* A failed engine query is `none` at the corresponding argument of
  `buildContainerPayload`: in the source, a stats failure leaves `stats` as
  `null` (with inspect retried alone), and a total failure leaves both `null`.
* `Date` timestamps are epoch milliseconds (`Int`); a start timestamp that is
  missing or unparseable is `none`.  `Date.now()` is an explicit `now`
  parameter.
-/

/-! ## JavaScript-semantics helpers -/

/-- JavaScript `a || b` for an optional number: `a` when present and nonzero
(`0` is falsy), otherwise `b`. -/
def jsOrNat (a : Option Nat) (b : Nat) : Nat :=
  match a with
  | some n => if n = 0 then b else n
  | none => b

/-- JavaScript `x.toFixed(0)` for a rational: round half up to an integer and
print it. -/
def jsToFixed0 (q : ℚ) : String :=
  (Int.toNat ⌊q + 1/2⌋).repr

/-- JavaScript `x.toFixed(1)` for a nonnegative rational: round half up at one
decimal digit and print with exactly one digit after the point. -/
def jsToFixed1 (q : ℚ) : String :=
  let n := Int.toNat ⌊q * 10 + 1/2⌋
  Nat.repr (n / 10) ++ "." ++ Nat.repr (n % 10)

/-- JavaScript `Number(x.toFixed(1))`: the numeric value of rounding half up at
one decimal digit. -/
def jsRound1 (q : ℚ) : ℚ :=
  (⌊q * 10 + 1/2⌋ : ℚ) / 10

/-- Fuel-driven floor logarithm: `floorLog1024Aux fuel b` counts how often `b`
can be divided by `1024` before dropping below `1024`. -/
def floorLog1024Aux : Nat → Nat → Nat
  | 0, _ => 0
  | fuel + 1, b => if b < 1024 then 0 else floorLog1024Aux fuel (b / 1024) + 1

/-- Translation of `Math.floor(Math.log(bytes) / Math.log(1024))` for a positive byte count:
the floor of the base-1024 logarithm. -/
def floorLog1024 (b : Nat) : Nat :=
  floorLog1024Aux b b

/-! ## Unit Formatter (`server/index.js`, lines 11–37) -/

/-- The `units` array of `formatBytes`.  In JavaScript an out-of-range index
yields `undefined`, which a template literal renders as the string
`"undefined"`. -/
def unitAt (i : Nat) : String :=
  match i with
  | 0 => "B"
  | 1 => "K"
  | 2 => "M"
  | 3 => "G"
  | 4 => "T"
  | _ => "undefined"

/-- Function `formatBytes` from `server/index.js`.  `none` is a `null`/`undefined`
argument (the `!bytes && bytes !== 0` guard). -/
def formatBytes (bytes : Option Nat) : String :=
  match bytes with
  | none => "-"
  | some b =>
    if b = 0 then "0B"
    else
      let i := floorLog1024 b
      let value : ℚ := (b : ℚ) / (1024 : ℚ) ^ i
      (if value ≥ 10 ∨ i = 0 then jsToFixed0 value else jsToFixed1 value) ++ unitAt i

/-- Function `formatDuration` from `server/index.js`.  `start` is the parsed epoch-ms
start timestamp (`none` = missing or unparseable), `now` is `Date.now()`. -/
def formatDuration (start : Option Int) (now : Int) : String :=
  match start with
  | none => "-"
  | some startTime =>
    let diff := now - startTime
    if diff < 0 then "-"
    else
      let seconds := diff.toNat / 1000
      let days := seconds / 86400
      let hours := seconds % 86400 / 3600
      let minutes := seconds % 3600 / 60
      let secs := seconds % 60
      if days > 0 then Nat.repr days ++ "d" ++ Nat.repr hours ++ "h" ++ Nat.repr minutes ++ "m"
      else if hours > 0 then Nat.repr hours ++ "h" ++ Nat.repr minutes ++ "m" ++ Nat.repr secs ++ "s"
      else if minutes > 0 then Nat.repr minutes ++ "m" ++ Nat.repr secs ++ "s"
      else Nat.repr secs ++ "s"

/-! ## Engine statistics snapshot (input of the Metric Extractor) -/

/-- The `cpu_usage` object of a (pre)cpu stats block: cumulative total usage and the
optional per-core usage list. -/
structure CpuUsage where
  total_usage : Int
  percpu_usage : Option (List Int)
deriving DecidableEq

/-- A `cpu_stats` / `precpu_stats` block of a stats snapshot. -/
structure CpuStats where
  cpu_usage : CpuUsage
  system_cpu_usage : Int
  online_cpus : Option Nat
deriving DecidableEq

/-- The nested `memory_stats.stats` object (only `cache` is read). -/
structure MemoryInnerStats where
  cache : Option Nat
deriving DecidableEq

/-- A `memory_stats` block of a stats snapshot. -/
structure MemoryStats where
  usage : Int
  limit : Option Nat
  stats : Option MemoryInnerStats
deriving DecidableEq

/-- One per-interface entry of `stats.networks`. -/
structure NicStats where
  rx_bytes : Option Nat
  tx_bytes : Option Nat
deriving DecidableEq

/-- One entry of `blkio_stats.io_service_bytes_recursive`. -/
structure BlkioEntry where
  op : String
  value : Nat
deriving DecidableEq

/-- The `blkio_stats` block; `io_service_bytes_recursive` is `none` when the
field is absent or not an array. -/
structure BlkioStats where
  io_service_bytes_recursive : Option (List BlkioEntry)
deriving DecidableEq

/-- The `pids_stats` block. -/
structure PidsStats where
  current : Option Nat
deriving DecidableEq

/-- A single-sample stats snapshot as returned by the engine, with paired
current/previous CPU counters.  Every sub-object may be absent. -/
structure Stats where
  cpu_stats : Option CpuStats
  precpu_stats : Option CpuStats
  memory_stats : Option MemoryStats
  networks : Option (List NicStats)
  blkio_stats : Option BlkioStats
  pids_stats : Option PidsStats
deriving DecidableEq

/-! ## Metric Extractor (`server/index.js`, lines 39–78) -/

/-- The `cores` expression of `cpuPercent`:
`stats.cpu_stats.online_cpus || (stats.cpu_stats.cpu_usage.percpu_usage ?
stats.cpu_stats.cpu_usage.percpu_usage.length : 1)`.  A present `online_cpus`
of `0` is falsy in JavaScript and falls through to the right operand, and a
present (even empty) `percpu_usage` array is truthy. -/
def effectiveCores (c : CpuStats) : Nat :=
  let fallback :=
    match c.cpu_usage.percpu_usage with
    | some l => l.length
    | none => 1
  match c.online_cpus with
  | some n => if n = 0 then fallback else n
  | none => fallback

/-- Function `cpuPercent` from `server/index.js`: `0` unless the snapshot and both CPU
blocks are present and both deltas are positive, else
`(Δtotal / Δsystem) * cores * 100`. -/
def cpuPercent (stats : Option Stats) : ℚ :=
  match stats with
  | none => 0
  | some s =>
    match s.precpu_stats, s.cpu_stats with
    | some p, some c =>
      let cpuDelta : Int := c.cpu_usage.total_usage - p.cpu_usage.total_usage
      let systemDelta : Int := c.system_cpu_usage - p.system_cpu_usage
      let cores := effectiveCores c
      if cpuDelta > 0 ∧ systemDelta > 0 then
        (cpuDelta : ℚ) / (systemDelta : ℚ) * (cores : ℚ) * 100
      else 0
    | _, _ => 0

/-- Result of `memoryUsage`: raw usage (already clamped), raw limit, and the
percentage. -/
structure MemUsage where
  usage : Int
  limit : Nat
  percent : ℚ
deriving DecidableEq

/-- The `cache` expression of `memoryUsage`:
`stats.memory_stats.stats && stats.memory_stats.stats.cache ? … : 0` — a
missing inner object or a falsy (absent or zero) `cache` gives `0`. -/
def cacheBytes (ms : MemoryStats) : Nat :=
  match ms.stats with
  | some inner => inner.cache.getD 0
  | none => 0

/-- Function `memoryUsage` from `server/index.js`: usage is `max(usage - cache, 0)`;
`limit` is `memory_stats.limit || 0`; percent is `usage / limit * 100`, or
`0` for a falsy (zero) limit. -/
def memoryUsage (stats : Option Stats) : MemUsage :=
  match stats with
  | none => ⟨0, 0, 0⟩
  | some s =>
    match s.memory_stats with
    | none => ⟨0, 0, 0⟩
    | some ms =>
      let usage : Int := max (ms.usage - (cacheBytes ms : Int)) 0
      let limit : Nat := ms.limit.getD 0
      let percent : ℚ := if limit = 0 then 0 else (usage : ℚ) / (limit : ℚ) * 100
      ⟨usage, limit, percent⟩

/-- Result of `networkIO`: summed receive/transmit byte counters. -/
structure NetIOTotals where
  rx : Nat
  tx : Nat
deriving DecidableEq

/-- Function `networkIO` from `server/index.js`: fold over `Object.values(stats.networks)`
summing `rx_bytes || 0` and `tx_bytes || 0`. -/
def networkIO (stats : Option Stats) : NetIOTotals :=
  match stats with
  | none => ⟨0, 0⟩
  | some s =>
    match s.networks with
    | none => ⟨0, 0⟩
    | some nics =>
      nics.foldl (fun acc nic => ⟨acc.rx + nic.rx_bytes.getD 0, acc.tx + nic.tx_bytes.getD 0⟩) ⟨0, 0⟩

/-- Result of `blockIO`: summed read/write byte totals. -/
structure BlockIOTotals where
  read : Nat
  write : Nat
deriving DecidableEq

/-- Function `blockIO` from `server/index.js`: fold over the accounting entries, adding
`value` to the read total when `op === 'Read'` and to the write total when
`op === 'Write'`. -/
def blockIO (stats : Option Stats) : BlockIOTotals :=
  match stats with
  | none => ⟨0, 0⟩
  | some s =>
    match s.blkio_stats with
    | none => ⟨0, 0⟩
    | some bs =>
      match bs.io_service_bytes_recursive with
      | none => ⟨0, 0⟩
      | some entries =>
        entries.foldl
          (fun acc entry =>
            ⟨if entry.op = "Read" then acc.read + entry.value else acc.read,
             if entry.op = "Write" then acc.write + entry.value else acc.write⟩)
          ⟨0, 0⟩

/-! ## Inspect data and listing entries -/

/-- The `State` object of an inspect response.  `StartedAt` is the parsed
epoch-ms timestamp of the start-time string (`none` = missing, empty — which
is falsy in the `!start` guard of `formatDuration` — or unparseable). -/
structure InspectState where
  Paused : Bool
  Restarting : Bool
  Running : Bool
  StartedAt : Option Int
  Pid : Option Nat
deriving DecidableEq

/-- One value of the `NetworkSettings.Networks` map. -/
structure NetworkInfo where
  IPAddress : Option String
deriving DecidableEq

/-- The `NetworkSettings` object of an inspect response: the `Networks` map as an ordered
list of name/info pairs (`Object.entries` order). -/
structure NetworkSettings where
  Networks : Option (List (String × NetworkInfo))
deriving DecidableEq

/-- An inspect response, restricted to the fields the payload builder reads. -/
structure InspectInfo where
  State : Option InspectState
  NetworkSettings : Option NetworkSettings
deriving DecidableEq

/-- One entry of a listing entry's `Ports` array. -/
structure PortInfo where
  IP : Option String
  PrivatePort : Nat
  PublicPort : Option Nat
  Type' : Option String
deriving DecidableEq

/-- A container listing entry (`docker.listContainers` element), restricted to
the fields the payload builder reads. -/
structure ContainerInfo where
  Id : String
  Names : Option (List String)
  Ports : Option (List PortInfo)
deriving DecidableEq

/-! ## Listing-side formatters (`server/index.js`, lines 80–121) -/

/-- Function `formatPorts` from `server/index.js`: `-` for a missing or empty `Ports`
array, else the comma-joined port descriptions.  `port.Type` is lowercased
when truthy (non-empty), defaulting to `tcp`; a falsy `PublicPort` (absent or
`0`) renders the bare container port; a falsy or `0.0.0.0` `IP` renders as
`0.0.0.0`. -/
def formatPorts (ports : Option (List PortInfo)) : String :=
  match ports with
  | none => "-"
  | some l =>
    if l.length = 0 then "-"
    else
      String.intercalate ", " (l.map fun port =>
        let proto :=
          match port.Type' with
          | some t => if t = "" then "tcp" else t.toLower
          | none => "tcp"
        let container := Nat.repr port.PrivatePort ++ "/" ++ proto
        match port.PublicPort with
        | some pub =>
          if pub = 0 then container
          else
            let host :=
              match port.IP with
              | some ip => if ip ≠ "" ∧ ip ≠ "0.0.0.0" then ip else "0.0.0.0"
              | none => "0.0.0.0"
            host ++ ":" ++ Nat.repr pub ++ " -> " ++ container
        | none => container)

/-- Function `formatNetworks` from `server/index.js`: `-` when `NetworkSettings` or its
`Networks` map is absent, else comma-joined `name:ip` entries (a falsy —
absent or empty — `IPAddress` renders as `0.0.0.0`), or `-` when the map is
empty. -/
def formatNetworks (networkSettings : Option NetworkSettings) : String :=
  match networkSettings with
  | none => "-"
  | some ns =>
    match ns.Networks with
    | none => "-"
    | some nets =>
      let entries := nets.map fun p =>
        let ip :=
          match p.2.IPAddress with
          | some s => if s = "" then "0.0.0.0" else s
          | none => "0.0.0.0"
        p.1 ++ ":" ++ ip
      if entries.length ≠ 0 then String.intercalate ", " entries else "-"

/-- Function `containerState` from `server/index.js`: precedence
`paused > restarting > running > stopped`, with `unknown` when inspect data or
its `State` is unavailable. -/
def containerState (inspectData : Option InspectInfo) : String :=
  match inspectData with
  | none => "unknown"
  | some d =>
    match d.State with
    | none => "unknown"
    | some st =>
      if st.Paused then "paused"
      else if st.Restarting then "restarting"
      else if st.Running then "running"
      else "stopped"

/-! ## Env parsing (`server/index.js`, lines 123–130) -/

/-- A parsed `KEY=VALUE` environment entry. -/
structure EnvPair where
  key : String
  value : String
deriving DecidableEq

/-- One step of `formatEnvVars`: `entry.indexOf('=')` and the two `slice`
calls, expressed on the character list.  No `'='` present yields
`{key: entry, value: ''}`. -/
def parseEnvEntry (entry : String) : EnvPair :=
  let pre := entry.toList.takeWhile (fun c => c ≠ '=')
  let post := entry.toList.dropWhile (fun c => c ≠ '=')
  match post with
  | [] => ⟨entry, ""⟩
  | _ :: rest => ⟨⟨pre⟩, ⟨rest⟩⟩

/-- Function `formatEnvVars` from `server/index.js`: `[]` when the argument is not an
array, else the entry-wise parse. -/
def formatEnvVars (envList : Option (List String)) : List EnvPair :=
  match envList with
  | none => []
  | some l => l.map parseEnvEntry

/-! ## Container Payload Builder (`server/index.js`, lines 132–203) -/

/-- The `memory` field of a summary. -/
structure MemoryField where
  usage : String
  limit : String
  percent : ℚ
deriving DecidableEq

/-- The `netIO` field of a summary (formatted strings). -/
structure NetIOField where
  rx : String
  tx : String
deriving DecidableEq

/-- The `blockIO` field of a summary (formatted strings). -/
structure BlockIOField where
  read : String
  write : String
deriving DecidableEq

/-- The `raw` field of a summary. -/
structure RawField where
  shortId : String
deriving DecidableEq

/-- The normalized per-container record produced by the payload builder. -/
structure ContainerSummary where
  id : String
  name : String
  state : String
  ports : String
  networks : String
  cpu : ℚ
  memory : MemoryField
  netIO : NetIOField
  netIOBytes : NetIOTotals
  blockIO : BlockIOField
  blockIOBytes : BlockIOTotals
  pids : Nat
  uptime : String
  raw : RawField
deriving DecidableEq

/-- The `name` expression of the payload builder:
`(containerInfo.Names && containerInfo.Names[0]) ?
containerInfo.Names[0].replace(/^\//, '') : containerInfo.Id.substring(0, 12)`.
An absent or empty `Names` array and an empty first name are falsy. -/
def summaryName (info : ContainerInfo) : String :=
  match info.Names with
  | some (n :: _) =>
    if n = "" then info.Id.take 12
    else if n.startsWith "/" then n.drop 1 else n
  | _ => info.Id.take 12

/-- The `pids` expression of the payload builder:
`(stats && stats.pids_stats && stats.pids_stats.current) ||
(inspectInfo && inspectInfo.State && inspectInfo.State.Pid) || 0`, with
JavaScript's falsy `0`. -/
def summaryPids (inspectInfo : Option InspectInfo) (stats : Option Stats) : Nat :=
  let fromStats : Option Nat :=
    match stats with
    | some s =>
      match s.pids_stats with
      | some ps => ps.current
      | none => none
    | none => none
  let fromInspect : Option Nat :=
    match inspectInfo with
    | some ii =>
      match ii.State with
      | some st => st.Pid
      | none => none
    | none => none
  jsOrNat fromStats (jsOrNat fromInspect 0)

/-- The `uptime` expression of the payload builder:
`inspectInfo ? formatDuration(inspectInfo.State && inspectInfo.State.StartedAt) : '-'`. -/
def summaryUptime (inspectInfo : Option InspectInfo) (now : Int) : String :=
  match inspectInfo with
  | none => "-"
  | some ii => formatDuration (Option.bind ii.State (fun st => st.StartedAt)) now

/-- The `networks` expression of the payload builder:
`inspectInfo ? formatNetworks(inspectInfo.NetworkSettings) : '-'`. -/
def summaryNetworks (inspectInfo : Option InspectInfo) : String :=
  match inspectInfo with
  | none => "-"
  | some ii => formatNetworks ii.NetworkSettings

/-- Function `buildContainerPayload` from `server/index.js`, lines 150–191 (the record
construction after the engine queries).  `inspectInfo` is `none` when both the
combined inspect+stats call and the retried inspect call failed; `stats` is
`none` whenever the combined call failed.  The construction itself performs no
fallible operation: it is a total function into `ContainerSummary`. -/
def buildContainerPayload (info : ContainerInfo) (inspectInfo : Option InspectInfo)
    (stats : Option Stats) (now : Int) : ContainerSummary :=
  let cpu := cpuPercent stats
  let mem := memoryUsage stats
  let net := networkIO stats
  let blk := blockIO stats
  { id := info.Id
    name := summaryName info
    state := containerState inspectInfo
    ports := formatPorts info.Ports
    networks := summaryNetworks inspectInfo
    cpu := jsRound1 cpu
    memory :=
      { usage := formatBytes (some mem.usage.toNat)
        limit := formatBytes (some mem.limit)
        percent := jsRound1 mem.percent }
    netIO := { rx := formatBytes (some net.rx), tx := formatBytes (some net.tx) }
    netIOBytes := net
    blockIO := { read := formatBytes (some blk.read), write := formatBytes (some blk.write) }
    blockIOBytes := blk
    pids := summaryPids inspectInfo stats
    uptime := summaryUptime inspectInfo now
    raw := { shortId := info.Id.take 12 } }

/-- The per-container fan-out of `GET /api/containers`
(`containers.map(buildContainerPayload)` joined by `Promise.all`): `inspectOf`
and `statsOf` give the outcome of each container's engine queries. -/
def listContainersPayload (infos : List ContainerInfo)
    (inspectOf : String → Option InspectInfo) (statsOf : String → Option Stats)
    (now : Int) : List ContainerSummary :=
  infos.map fun info => buildContainerPayload info (inspectOf info.Id) (statsOf info.Id) now

/-! ## Client rolling history (`client/src/App.tsx`, lines 34 and 152–181) -/

/-- Constant `HISTORY_POINTS` from `client/src/App.tsx`. -/
def HISTORY_POINTS : Nat := 40

/-- One per-container rolling history record (`MetricHistory`). -/
structure MetricHistory where
  cpu : List ℚ
  mem : List ℚ
  netRx : List ℚ
  netTx : List ℚ
  blockRead : List ℚ
  blockWrite : List ℚ
deriving DecidableEq

/-- The empty history a newly seen container starts from. -/
def emptyHistory : MetricHistory :=
  ⟨[], [], [], [], [], []⟩

/-- The fields of a `ContainerInfo` row that feed the history update.  The
optional byte totals model the `?.` / `?? 0` accesses. -/
structure ClientContainer where
  id : String
  cpu : ℚ
  memPercent : ℚ
  netRx : Option Nat
  netTx : Option Nat
  blockRead : Option Nat
  blockWrite : Option Nat
deriving DecidableEq

/-- JavaScript `list.slice(-n)`: the last `n` elements (the whole list when it
is shorter). -/
def jsSliceLast (n : Nat) (l : List ℚ) : List ℚ :=
  l.drop (l.length - n)

/-- The `append` helper of the history effect:
`list.concat(value).slice(-HISTORY_POINTS)`.  (The `Number.isFinite` guard is
the identity here, since every modelled sample is a finite rational.) -/
def appendSample (l : List ℚ) (v : ℚ) : List ℚ :=
  jsSliceLast HISTORY_POINTS (l ++ [v])

/-- The `setHistory` effect of `client/src/App.tsx`: the next history record
holds exactly one entry per listed container (so an id absent from the latest
listing is discarded), each series extended by the container's current sample
through `appendSample`, starting from the empty record for unseen ids.
Listing ids are distinct, so the object built by `forEach` is modelled as the
entry list in listing order, looked up by first match. -/
def updateHistory (prev : List (String × MetricHistory)) (containers : List ClientContainer) :
    List (String × MetricHistory) :=
  containers.map fun c =>
    let current := (prev.lookup c.id).getD emptyHistory
    (c.id,
      { cpu := appendSample current.cpu c.cpu
        mem := appendSample current.mem c.memPercent
        netRx := appendSample current.netRx ((c.netRx.getD 0 : Nat) : ℚ)
        netTx := appendSample current.netTx ((c.netTx.getD 0 : Nat) : ℚ)
        blockRead := appendSample current.blockRead ((c.blockRead.getD 0 : Nat) : ℚ)
        blockWrite := appendSample current.blockWrite ((c.blockWrite.getD 0 : Nat) : ℚ) })

/-! ## Claim-side definitions

The following definitions are written from the specification's words, not from
the source, and exist only to be compared against the source-side definitions
above.  Each one names the sentence it transcribes. -/

/-- Modelled from the spec sentence for CPU percent: "core count prefers an
explicit online-core count, falling back to the length of a per-core usage
list, falling back to 1" — read literally, with no non-zero requirement on the
explicit count. -/
def specClaimedCores (c : CpuStats) : Nat :=
  match c.online_cpus with
  | some n => n
  | none =>
    match c.cpu_usage.percpu_usage with
    | some l => l.length
    | none => 1

/-- Modelled from the spec sentence for CPU percent:
"(Δtotal_usage / Δsystem_usage) × effective_core_count × 100 … Result is 0
whenever either delta is non-positive", with the literal core-count reading of
`specClaimedCores`. -/
def specClaimedCpuPercent (stats : Option Stats) : ℚ :=
  match stats with
  | none => 0
  | some s =>
    match s.precpu_stats, s.cpu_stats with
    | some p, some c =>
      let cpuDelta : Int := c.cpu_usage.total_usage - p.cpu_usage.total_usage
      let systemDelta : Int := c.system_cpu_usage - p.system_cpu_usage
      if cpuDelta ≤ 0 ∨ systemDelta ≤ 0 then 0
      else (cpuDelta : ℚ) / (systemDelta : ℚ) * (specClaimedCores c : ℚ) * 100
    | _, _ => 0

/-- Modelled from the amended C1 claim: the effective core count is the
explicit online-core count when present and non-zero, else the length of the
per-core usage list when present, else 1. -/
def specAmendedCores (c : CpuStats) : Nat :=
  match c.online_cpus, c.cpu_usage.percpu_usage with
  | some (n + 1), _ => n + 1
  | some 0, some l => l.length
  | some 0, none => 1
  | none, some l => l.length
  | none, none => 1

/-- Modelled from the amended C1 claim: CPU percent is
`(Δtotal / Δsystem) × specAmendedCores × 100`, and `0` whenever either delta
is non-positive or the snapshot or either counter block is missing. -/
def specAmendedCpuPercent (stats : Option Stats) : ℚ :=
  match stats with
  | none => 0
  | some s =>
    match s.precpu_stats, s.cpu_stats with
    | some p, some c =>
      let cpuDelta : Int := c.cpu_usage.total_usage - p.cpu_usage.total_usage
      let systemDelta : Int := c.system_cpu_usage - p.system_cpu_usage
      if cpuDelta ≤ 0 ∨ systemDelta ≤ 0 then 0
      else (cpuDelta : ℚ) / (systemDelta : ℚ) * (specAmendedCores c : ℚ) * 100
    | _, _ => 0

/-- Modelled from the C4 claim sentence: elapsed time "using the two coarsest
non-zero units of days/hours/minutes/seconds (except days, which always shows
hours and minutes alongside)"; `-` for missing or future timestamps. -/
def specClaimedDuration (start : Option Int) (now : Int) : String :=
  match start with
  | none => "-"
  | some startTime =>
    if now - startTime < 0 then "-"
    else
      let seconds := (now - startTime).toNat / 1000
      let days := seconds / 86400
      let hours := seconds % 86400 / 3600
      let minutes := seconds % 3600 / 60
      let secs := seconds % 60
      if days > 0 then Nat.repr days ++ "d" ++ Nat.repr hours ++ "h" ++ Nat.repr minutes ++ "m"
      else
        let parts := [(hours, "h"), (minutes, "m"), (secs, "s")]
        let nonzero := parts.filter fun p => 0 < p.1
        match nonzero.take 2 with
        | [] => "0s"
        | ps => String.join (ps.map fun p => Nat.repr p.1 ++ p.2)

/-- Modelled from the amended C4 claim: `-` for missing/unparseable/future
timestamps; otherwise days render as `XdYhZm`, hours as `XhYmZs` (the hour
branch also carries seconds), minutes as `XmYs`, and below a minute `Xs`. -/
def specAmendedDuration (start : Option Int) (now : Int) : String :=
  match start with
  | none => "-"
  | some startTime =>
    if now < startTime then "-"
    else
      let seconds := (now - startTime).toNat / 1000
      let d := seconds / 86400
      let h := seconds % 86400 / 3600
      let m := seconds % 3600 / 60
      let s := seconds % 60
      if 0 < d then Nat.repr d ++ "d" ++ Nat.repr h ++ "h" ++ Nat.repr m ++ "m"
      else if 0 < h then Nat.repr h ++ "h" ++ Nat.repr m ++ "m" ++ Nat.repr s ++ "s"
      else if 0 < m then Nat.repr m ++ "m" ++ Nat.repr s ++ "s"
      else Nat.repr s ++ "s"

/-- Modelled from the amended C5 claim: the largest base-1024 unit among
B/K/M/G/T such that the scaled value is at least 1, as an explicit comparison
chain. -/
def specUnitIndex (b : Nat) : Nat :=
  if 1024 ^ 4 ≤ b then 4
  else if 1024 ^ 3 ≤ b then 3
  else if 1024 ^ 2 ≤ b then 2
  else if 1024 ^ 1 ≤ b then 1
  else 0

/-- Modelled from the amended C5 claim: `-` for a missing value, `0B` for
zero; otherwise scale by the unit of `specUnitIndex` and render with 0
decimals when the scaled value is at least 10 or the unit is B, else with 1
decimal. -/
def specFormatBytes (bytes : Option Nat) : String :=
  match bytes with
  | none => "-"
  | some b =>
    if b = 0 then "0B"
    else
      let i := specUnitIndex b
      let value : ℚ := (b : ℚ) / (1024 : ℚ) ^ i
      (if 10 ≤ value ∨ i = 0 then jsToFixed0 value else jsToFixed1 value) ++ unitAt i

/-- A stats snapshot whose `cpu_stats.online_cpus` is present but `0` — as the
engine reports for a stopped container — with a two-entry per-core usage list
and positive deltas. -/
def statsOnlineCpusZero : Stats :=
  { cpu_stats := some
      { cpu_usage := { total_usage := 2, percpu_usage := some [0, 0] }
        system_cpu_usage := 3
        online_cpus := some 0 }
    precpu_stats := some
      { cpu_usage := { total_usage := 1, percpu_usage := none }
        system_cpu_usage := 1
        online_cpus := none }
    memory_stats := none
    networks := none
    blkio_stats := none
    pids_stats := none }

/-- A `memory_stats` block whose reported cache (9) exceeds its reported
usage (5). -/
def memStatsCacheExceedsUsage : MemoryStats :=
  { usage := 5, limit := some 100, stats := some { cache := some 9 } }

/-- A stats snapshot carrying `memStatsCacheExceedsUsage`. -/
def statsCacheExceedsUsage : Stats :=
  { cpu_stats := none
    precpu_stats := none
    memory_stats := some memStatsCacheExceedsUsage
    networks := none
    blkio_stats := none
    pids_stats := none }

/-- A block-IO accounting list with tags `Read`, `Write`, `Total` and a
lower-case `read`. -/
def statsMixedBlkioTags : Stats :=
  { cpu_stats := none
    precpu_stats := none
    memory_stats := none
    networks := none
    blkio_stats := some
      { io_service_bytes_recursive := some
          [⟨"Read", 5⟩, ⟨"Write", 3⟩, ⟨"Total", 100⟩, ⟨"read", 7⟩, ⟨"Read", 2⟩] }
    pids_stats := none }

/-! ## Helper lemmas -/

theorem floorLog1024Aux_spec (fuel b : Nat) (hb : 0 < b) (hfuel : b ≤ fuel) :
    1024 ^ floorLog1024Aux fuel b ≤ b ∧ b < 1024 ^ (floorLog1024Aux fuel b + 1) := by
  induction fuel generalizing b with
  | zero => omega
  | succ fuel ih =>
    rw [floorLog1024Aux]
    by_cases h : b < 1024
    · simp [h]
      omega
    · simp [h]
      have hq : 0 < b / 1024 := Nat.div_pos (by omega) (by norm_num)
      have hle : b / 1024 ≤ fuel := by
        have := Nat.div_lt_self hb (by norm_num : (1:ℕ) < 1024)
        omega
      obtain ⟨h1, h2⟩ := ih (b / 1024) hq hle
      constructor
      · calc 1024 ^ (floorLog1024Aux fuel (b / 1024) + 1)
            = 1024 ^ floorLog1024Aux fuel (b / 1024) * 1024 := by ring
          _ ≤ b / 1024 * 1024 := Nat.mul_le_mul_right _ h1
          _ ≤ b := Nat.div_mul_le_self b 1024
      · calc b < (b / 1024 + 1) * 1024 := by
              have := (Nat.div_lt_iff_lt_mul (show 0 < 1024 by norm_num)).mp
                (Nat.lt_succ_self (b / 1024))
              omega
          _ ≤ 1024 ^ (floorLog1024Aux fuel (b / 1024) + 1) * 1024 :=
              Nat.mul_le_mul_right _ (by omega)
          _ = 1024 ^ (floorLog1024Aux fuel (b / 1024) + 1 + 1) := by ring

theorem floorLog1024_spec (b : Nat) (hb : 0 < b) :
    1024 ^ floorLog1024 b ≤ b ∧ b < 1024 ^ (floorLog1024 b + 1) :=
  floorLog1024Aux_spec b b hb le_rfl

theorem floorLog1024_eq (b i : Nat) (hb : 0 < b) (h1 : 1024 ^ i ≤ b)
    (h2 : b < 1024 ^ (i + 1)) : floorLog1024 b = i := by
  obtain ⟨g1, g2⟩ := floorLog1024_spec b hb
  by_contra hne
  rcases Nat.lt_or_ge (floorLog1024 b) i with hlt | hge
  · have : 1024 ^ (floorLog1024 b + 1) ≤ 1024 ^ i :=
      Nat.pow_le_pow_right (by norm_num) (by omega)
    omega
  · have : 1024 ^ (i + 1) ≤ 1024 ^ floorLog1024 b :=
      Nat.pow_le_pow_right (by norm_num) (by omega)
    omega

theorem floorLog1024_eq_specUnitIndex (b : Nat) (hb : 0 < b) (hub : b < 1024 ^ 5) :
    floorLog1024 b = specUnitIndex b := by
  unfold specUnitIndex
  split_ifs with h4 h3 h2 h1
  · exact floorLog1024_eq b 4 hb h4 (by norm_num at hub ⊢; omega)
  · exact floorLog1024_eq b 3 hb h3 (by norm_num at h4 ⊢; omega)
  · exact floorLog1024_eq b 2 hb h2 (by norm_num at h3 ⊢; omega)
  · exact floorLog1024_eq b 1 hb h1 (by norm_num at h2 ⊢; omega)
  · exact floorLog1024_eq b 0 hb (by norm_num; omega) (by norm_num at h1 ⊢; omega)

/-- Rounding half up at one decimal preserves nonnegativity. -/
theorem jsRound1_nonneg (q : ℚ) (hq : 0 ≤ q) : 0 ≤ jsRound1 q := by
  unfold jsRound1
  apply div_nonneg _ (by norm_num)
  have : (0 : ℤ) ≤ ⌊q * 10 + 1/2⌋ := by
    rw [Int.floor_nonneg]
    positivity
  exact_mod_cast this

/-- Rounding zero at one decimal gives zero: `Number((0).toFixed(1))` is `0`. -/
theorem jsRound1_zero : jsRound1 0 = 0 := by
  norm_num [jsRound1]

/-- Claim C5, counterexample: the code renders `formatBytes(1024)` as
`"1.0K"` (the scaled value `1` is below `10` and the unit is not `B`, so one
decimal digit is kept), not `"1K"` as the claim asserts. -/
theorem formatBytes_1024_counterexample :
    formatBytes (some 1024) = "1.0K" ∧ ("1.0K" : String) ≠ "1K" := by
  constructor
  · have hlog : floorLog1024 1024 = 1 :=
      floorLog1024_eq _ _ (by norm_num) (by norm_num) (by norm_num)
    rw [formatBytes]
    simp only [hlog]
    norm_num [jsToFixed1, unitAt]
    decide
  · decide

/-- Claim C5 as amended: `formatBytes` returns `-` for a missing value, `0B`
for zero, and for positive byte counts below `1024 ^ 5` (the range covered by
the B/K/M/G/T unit table) agrees with the spec-side renderer that picks the
largest unit whose scaled value is at least `1` and keeps one decimal digit
exactly when the scaled value is below `10` and the unit is not `B`; in
particular `formatBytes(1024) = "1.0K"` and `formatBytes(1536) = "1.5K"`. -/
theorem formatBytes_spec :
    formatBytes none = "-" ∧ formatBytes (some 0) = "0B" ∧
    (∀ b : Nat, 0 < b → b < 1024 ^ 5 → formatBytes (some b) = specFormatBytes (some b)) ∧
    formatBytes (some 1024) = "1.0K" ∧ formatBytes (some 1536) = "1.5K" := by
  refine ⟨rfl, rfl, ?_, ?_, ?_⟩
  · intro b hb hub
    have hlog := floorLog1024_eq_specUnitIndex b hb hub
    rw [formatBytes, specFormatBytes, hlog]
  · have hlog : floorLog1024 1024 = 1 :=
      floorLog1024_eq _ _ (by norm_num) (by norm_num) (by norm_num)
    rw [formatBytes]
    simp only [hlog]
    norm_num [jsToFixed1, unitAt]
    decide
  · have hlog : floorLog1024 1536 = 1 :=
      floorLog1024_eq _ _ (by norm_num) (by norm_num) (by norm_num)
    rw [formatBytes]
    simp only [hlog]
    norm_num [jsToFixed1, unitAt]
    decide

/-- Witness for `formatBytes_spec` at `b = 1536`. -/
theorem formatBytes_spec_witness :
    0 < 1536 ∧ 1536 < 1024 ^ 5 ∧ formatBytes (some 1536) = specFormatBytes (some 1536) :=
  ⟨by norm_num, by norm_num, formatBytes_spec.2.2.1 1536 (by norm_num) (by norm_num)⟩

/-- Claim C4, counterexample: at an elapsed time of 3661 seconds the code
renders all three of hours, minutes and seconds — `"1h1m1s"` — while the
claim's two-coarsest-units rule renders `"1h1m"`. -/
theorem formatDuration_counterexample :
    formatDuration (some 0) 3661000 = "1h1m1s" ∧
    specClaimedDuration (some 0) 3661000 = "1h1m" ∧
    ("1h1m1s" : String) ≠ "1h1m" := by
  refine ⟨by decide, by decide, by decide⟩

/-- Claim C4 as amended: `formatDuration` returns `-` for missing,
unparseable, or future start timestamps; otherwise it renders days as
`XdYhZm`, hours as `XhYmZs` (the hour branch also carries seconds), minutes
as `XmYs`, and below a minute `Xs`; in particular a timestamp 90 seconds in
the past yields `"1m30s"` and a future timestamp yields `"-"`. -/
theorem formatDuration_spec :
    (∀ (start : Option Int) (now : Int),
      formatDuration start now = specAmendedDuration start now) ∧
    (∀ now : Int, formatDuration (some (now - 90000)) now = "1m30s") ∧
    (∀ now : Int, formatDuration (some (now + 60000)) now = "-") := by
  refine ⟨?_, ?_, ?_⟩
  · intro start now
    cases start with
    | none => rfl
    | some t =>
      simp only [formatDuration, specAmendedDuration]
      by_cases h : now - t < 0
      · rw [if_pos h, if_pos (by omega : now < t)]
      · rw [if_neg h, if_neg (by omega : ¬ now < t)]
  · intro now
    have h : now - (now - 90000) = 90000 := by ring
    simp only [formatDuration, h]
    decide
  · intro now
    have h : now - (now + 60000) = -60000 := by ring
    simp only [formatDuration, h]
    decide


theorem effectiveCores_eq_specAmendedCores (c : CpuStats) :
    effectiveCores c = specAmendedCores c := by
  rcases c with ⟨⟨t, percpu⟩, sys, online⟩
  rcases online with _ | ⟨_ | n⟩ <;> rcases percpu with _ | l <;> rfl

/-- Claim C1, counterexample: with `online_cpus` present but `0` (a falsy
value in JavaScript) and a per-core list of length 2, the code falls through
to the list length and computes `(1/2) × 2 × 100 = 100`, while the claim's
core count — "the explicit online-core count if present" — is `0`, making its
formula yield `0`. -/
theorem cpuPercent_counterexample :
    cpuPercent (some statsOnlineCpusZero) = 100 ∧
    specClaimedCpuPercent (some statsOnlineCpusZero) = 0 := by
  constructor
  · simp only [cpuPercent, statsOnlineCpusZero, effectiveCores]
    norm_num
  · simp only [specClaimedCpuPercent, statsOnlineCpusZero, specClaimedCores]
    norm_num

/-- Claim C1 as amended: the computed CPU percent equals
`(Δtotal / Δsystem) × cores × 100` where the core count is the explicit
online-core count when present and non-zero, else the length of the per-core
usage list when present, else `1`; and the result is `0` whenever either
delta is non-positive (in particular when `Δsystem = 0`) or a counter block
is missing. -/
theorem cpuPercent_spec :
    ∀ stats : Option Stats, cpuPercent stats = specAmendedCpuPercent stats := by
  intro stats
  cases stats with
  | none => rfl
  | some s =>
    rcases s with ⟨cpu, precpu, m, n, b, p⟩
    rcases precpu with _ | pc <;> rcases cpu with _ | cc
    · rfl
    · rfl
    · rfl
    · simp only [cpuPercent, specAmendedCpuPercent, effectiveCores_eq_specAmendedCores]
      by_cases h : cc.cpu_usage.total_usage - pc.cpu_usage.total_usage > 0 ∧
          cc.system_cpu_usage - pc.system_cpu_usage > 0
      · rw [if_pos h, if_neg (by omega)]
      · rw [if_neg h, if_pos (by omega)]

/-- Claim C6: for every stats snapshot carrying a `memory_stats` block, usage
is the reported usage minus the reported cache bytes clamped to be
nonnegative (so it is never negative even when cache exceeds usage), and
percent is `usage / limit × 100`, or `0` when the limit is `0`.  The clamped
nonnegativity also holds for snapshots without a `memory_stats` block. -/
theorem memoryUsage_spec :
    (∀ (s : Stats) (ms : MemoryStats), s.memory_stats = some ms →
      (memoryUsage (some s)).usage = max (ms.usage - (cacheBytes ms : Int)) 0 ∧
      (memoryUsage (some s)).percent =
        (if ms.limit.getD 0 = 0 then 0
         else ((memoryUsage (some s)).usage : ℚ) / (ms.limit.getD 0 : ℚ) * 100)) ∧
    (∀ stats : Option Stats, 0 ≤ (memoryUsage stats).usage) := by
  constructor
  · intro s ms hms
    simp only [memoryUsage, hms]
    exact ⟨trivial, trivial⟩
  · intro stats
    rcases stats with _ | s
    · simp [memoryUsage]
    · rcases hms : s.memory_stats with _ | ms
      · simp [memoryUsage, hms]
      · simp only [memoryUsage, hms]
        exact le_max_right _ _

/-- Witness for `memoryUsage_spec`: a snapshot whose reported cache (9)
exceeds its reported usage (5) under a limit of 100 — usage clamps to `0`. -/
theorem memoryUsage_spec_witness :
    (memoryUsage (some statsCacheExceedsUsage)).usage =
      max ((5 : Int) - (cacheBytes memStatsCacheExceedsUsage : Int)) 0 :=
  (memoryUsage_spec.1 statsCacheExceedsUsage memStatsCacheExceedsUsage rfl).1

theorem blockIO_foldl (entries : List BlkioEntry) (r w : Nat) :
    entries.foldl
      (fun acc entry =>
        (⟨if entry.op = "Read" then acc.read + entry.value else acc.read,
          if entry.op = "Write" then acc.write + entry.value else acc.write⟩ : BlockIOTotals))
      ⟨r, w⟩ =
    ⟨r + ((entries.filter fun e => e.op == "Read").map BlkioEntry.value).sum,
     w + ((entries.filter fun e => e.op == "Write").map BlkioEntry.value).sum⟩ := by
  induction entries generalizing r w with
  | nil => simp
  | cons e t ih =>
    simp only [List.foldl_cons, List.filter_cons, ih]
    by_cases hr : e.op = "Read" <;> by_cases hw : e.op = "Write" <;>
      simp [hr, hw] <;> omega

/-- Claim C7: for every snapshot carrying a block-IO accounting list, the
read total sums the `value` of exactly the entries tagged `"Read"` and the
write total those tagged `"Write"` (case-sensitively); entries with any other
tag contribute to neither, and the fold is total, so they cause no error. -/
theorem blockIO_spec :
    ∀ (s : Stats) (bs : BlkioStats) (entries : List BlkioEntry),
      s.blkio_stats = some bs → bs.io_service_bytes_recursive = some entries →
      blockIO (some s) =
        ⟨((entries.filter fun e => e.op == "Read").map BlkioEntry.value).sum,
         ((entries.filter fun e => e.op == "Write").map BlkioEntry.value).sum⟩ := by
  intro s bs entries hbs hio
  simp only [ blockIO, hbs, hio]
  have := blockIO_foldl entries 0 0
  simpa using this

/-- Witness for `blockIO_spec`: a list with tags `Read`, `Write`, `Total` and
lower-case `read` — only the exact `Read` / `Write` entries are summed. -/
theorem blockIO_spec_witness :
    blockIO (some statsMixedBlkioTags) = ⟨7, 3⟩ := by
  have h := blockIO_spec statsMixedBlkioTags _ _ rfl rfl
  rw [h]
  decide

/-- Claim C2: when the stats query fails (`stats = none`) but inspect
succeeds, the summary's `name`, `state`, `uptime` and `networks` coincide
with what any stats outcome would produce — they are derived from listing and
inspect data alone — and every cpu / memory / network-IO / block-IO metric
field is zero-valued. -/
theorem buildContainerPayload_statsFailure_spec :
    ∀ (info : ContainerInfo) (d : InspectInfo) (st : Stats) (now : Int),
      (buildContainerPayload info (some d) none now).name =
        (buildContainerPayload info (some d) (some st) now).name ∧
      (buildContainerPayload info (some d) none now).state =
        (buildContainerPayload info (some d) (some st) now).state ∧
      (buildContainerPayload info (some d) none now).uptime =
        (buildContainerPayload info (some d) (some st) now).uptime ∧
      (buildContainerPayload info (some d) none now).networks =
        (buildContainerPayload info (some d) (some st) now).networks ∧
      (buildContainerPayload info (some d) none now).cpu = 0 ∧
      (buildContainerPayload info (some d) none now).memory = ⟨"0B", "0B", 0⟩ ∧
      ContainerSummary.netIO (buildContainerPayload info (some d) none now) = ⟨"0B", "0B"⟩ ∧
      (buildContainerPayload info (some d) none now).netIOBytes = ⟨0, 0⟩ ∧
      ContainerSummary.blockIO (buildContainerPayload info (some d) none now) = ⟨"0B", "0B"⟩ ∧
      (buildContainerPayload info (some d) none now).blockIOBytes = ⟨0, 0⟩ := by
  intro info d st now
  refine ⟨rfl, rfl, rfl, rfl, ?_, ?_, rfl, rfl, rfl, rfl⟩
  · exact jsRound1_zero
  · show MemoryField.mk (formatBytes (some (Int.toNat (memoryUsage none).usage)))
      (formatBytes (some (memoryUsage none).limit)) (jsRound1 (memoryUsage none).percent) = _
    rw [show (memoryUsage none) = ⟨0, 0, 0⟩ from rfl]
    simp only [jsRound1_zero]
    rfl

/-- Claim C3: `buildContainerPayload` is a total function — for any listing
entry it yields a complete `ContainerSummary` even when both the combined
inspect+stats call and the retried inspect call have failed (both arguments
`none`), with every field at its defined fallback; and the listing fan-out
therefore yields one summary per listing entry. -/
theorem buildContainerPayload_total_spec :
    (∀ (info : ContainerInfo) (now : Int),
      (buildContainerPayload info none none now).id = info.Id ∧
      (buildContainerPayload info none none now).name = summaryName info ∧
      (buildContainerPayload info none none now).state = "unknown" ∧
      (buildContainerPayload info none none now).ports = formatPorts info.Ports ∧
      (buildContainerPayload info none none now).networks = "-" ∧
      (buildContainerPayload info none none now).cpu = 0 ∧
      (buildContainerPayload info none none now).memory = ⟨"0B", "0B", 0⟩ ∧
      ContainerSummary.netIO (buildContainerPayload info none none now) = ⟨"0B", "0B"⟩ ∧
      (buildContainerPayload info none none now).netIOBytes = ⟨0, 0⟩ ∧
      ContainerSummary.blockIO (buildContainerPayload info none none now) = ⟨"0B", "0B"⟩ ∧
      (buildContainerPayload info none none now).blockIOBytes = ⟨0, 0⟩ ∧
      (buildContainerPayload info none none now).pids = 0 ∧
      (buildContainerPayload info none none now).uptime = "-" ∧
      (buildContainerPayload info none none now).raw = ⟨info.Id.take 12⟩) ∧
    (∀ (infos : List ContainerInfo) (inspectOf : String → Option InspectInfo)
        (statsOf : String → Option Stats) (now : Int),
      (listContainersPayload infos inspectOf statsOf now).length = infos.length) := by
  constructor
  · intro info now
    refine ⟨rfl, rfl, rfl, rfl, rfl, jsRound1_zero, ?_, rfl, rfl, rfl, rfl, rfl, rfl, rfl⟩
    show MemoryField.mk (formatBytes (some (Int.toNat (memoryUsage none).usage)))
      (formatBytes (some (memoryUsage none).limit)) (jsRound1 (memoryUsage none).percent) = _
    rw [show (memoryUsage none) = ⟨0, 0, 0⟩ from rfl]
    simp only [jsRound1_zero]
    rfl
  · intro infos inspectOf statsOf now
    simp [listContainersPayload]

theorem cpuPercent_nonneg (stats : Option Stats) : 0 ≤ cpuPercent stats := by
  rcases stats with _ | s
  · exact le_refl 0
  · rcases s with ⟨cpu, precpu, m, n, b, p⟩
    rcases precpu with _ | pc <;> rcases cpu with _ | cc
    · exact le_refl 0
    · exact le_refl 0
    · exact le_refl 0
    · simp only [cpuPercent]
      by_cases h : cc.cpu_usage.total_usage - pc.cpu_usage.total_usage > 0 ∧
          cc.system_cpu_usage - pc.system_cpu_usage > 0
      · rw [if_pos h]
        have h1 : (0:ℚ) ≤ (cc.cpu_usage.total_usage - pc.cpu_usage.total_usage : Int) := by
          exact_mod_cast h.1.le
        have h2 : (0:ℚ) ≤ (cc.system_cpu_usage - pc.system_cpu_usage : Int) := by
          exact_mod_cast h.2.le
        have := div_nonneg h1 h2
        positivity
      · rw [if_neg h]

/-- Claim C10: for every stats input — including a missing snapshot, missing
sub-objects, or arbitrary (even decreasing) counter values — the computed CPU
percent is nonnegative, and hence the `cpu` field of every summary the
payload builder produces is nonnegative. -/
theorem cpu_field_nonneg :
    (∀ stats : Option Stats, 0 ≤ cpuPercent stats) ∧
    (∀ (info : ContainerInfo) (inspectInfo : Option InspectInfo) (stats : Option Stats)
        (now : Int), 0 ≤ (buildContainerPayload info inspectInfo stats now).cpu) := by
  refine ⟨cpuPercent_nonneg, ?_⟩
  intro info inspectInfo stats now
  exact jsRound1_nonneg _ (cpuPercent_nonneg stats)

theorem appendSample_length_le (l : List ℚ) (v : ℚ) :
    (appendSample l v).length ≤ HISTORY_POINTS := by
  simp only [appendSample, jsSliceLast, HISTORY_POINTS, List.length_drop, List.length_append,
    List.length_cons, List.length_nil]
  omega

/-- Claim C8: after every history update each rolling series holds at most
`HISTORY_POINTS = 40` samples; a full series evicts its oldest sample first
(the new series is the old one minus its head, plus the new sample at the
end); and an id absent from the latest listing has no entry in the updated
history. -/
theorem updateHistory_spec :
    (∀ (prev : List (String × MetricHistory)) (cs : List ClientContainer)
        (p : String × MetricHistory), p ∈ updateHistory prev cs →
      p.2.cpu.length ≤ HISTORY_POINTS ∧ p.2.mem.length ≤ HISTORY_POINTS ∧
      p.2.netRx.length ≤ HISTORY_POINTS ∧ p.2.netTx.length ≤ HISTORY_POINTS ∧
      p.2.blockRead.length ≤ HISTORY_POINTS ∧ p.2.blockWrite.length ≤ HISTORY_POINTS) ∧
    (∀ (l : List ℚ) (v : ℚ), l.length = HISTORY_POINTS →
      appendSample l v = l.tail ++ [v]) ∧
    (∀ (prev : List (String × MetricHistory)) (cs : List ClientContainer) (id : String),
      id ∉ cs.map ClientContainer.id → (updateHistory prev cs).lookup id = none) := by
  refine ⟨?_, ?_, ?_⟩
  · intro prev cs p hp
    obtain ⟨c, _, rfl⟩ := List.mem_map.mp hp
    exact ⟨appendSample_length_le _ _, appendSample_length_le _ _, appendSample_length_le _ _,
      appendSample_length_le _ _, appendSample_length_le _ _, appendSample_length_le _ _⟩
  · intro l v hl
    have hl40 : l.length = 40 := hl
    simp only [appendSample, jsSliceLast, HISTORY_POINTS, List.length_append, hl40]
    rw [show (40 + [v].length - 40) = 1 by simp]
    rw [List.drop_append_of_le_length (by omega)]
    simp [List.drop_one]
  · intro prev cs id hid
    induction cs with
    | nil => rfl
    | cons c t ih =>
      simp only [List.map_cons, List.mem_cons, not_or] at hid
      simp only [updateHistory, List.map_cons, List.lookup]
      rw [show (id == c.id) = false from beq_eq_false_iff_ne.mpr hid.1]
      exact ih hid.2

/-- Witness for `updateHistory_spec`: a full 40-sample series drops its
oldest sample when a new one arrives, and an id absent from the listing is
absent from the updated history. -/
theorem updateHistory_spec_witness :
    appendSample (List.replicate 40 (0 : ℚ)) 1 = (List.replicate 40 (0 : ℚ)).tail ++ [1] ∧
    (updateHistory [("gone", emptyHistory)] []).lookup "gone" = none := by
  constructor
  · exact updateHistory_spec.2.1 _ 1 (by simp [HISTORY_POINTS])
  · exact updateHistory_spec.2.2 [("gone", emptyHistory)] [] "gone" (by simp)

theorem takeWhile_append_eq (l r : List Char) (h : ∀ c ∈ l, c ≠ '=') :
    (l ++ '=' :: r).takeWhile (fun c => c ≠ '=') = l := by
  induction l with
  | nil => simp [List.takeWhile]
  | cons c t ih =>
    simp only [List.cons_append, List.takeWhile]
    rw [show (decide (c ≠ '=')) = true from decide_eq_true (h c (by simp))]
    exact congrArg (List.cons c) (ih fun x hx => h x (by simp [hx]))

theorem dropWhile_append_eq (l r : List Char) (h : ∀ c ∈ l, c ≠ '=') :
    (l ++ '=' :: r).dropWhile (fun c => c ≠ '=') = '=' :: r := by
  induction l with
  | nil => simp [List.dropWhile]
  | cons c t ih =>
    simp only [List.cons_append, List.dropWhile]
    rw [show (decide (c ≠ '=')) = true from decide_eq_true (h c (by simp))]
    exact ih fun x hx => h x (by simp [hx])

/-- Claim C9: env parsing maps `k ++ "=" ++ v` (for a key containing no `=`)
to `{key := k, value := v}` — splitting at the first `=`, with everything
after it, further `=` included, as the value — and a string without `=` to
`{key := entry, value := ""}`; `formatEnvVars` applies this to every entry;
in particular `"KEY=value"` and `"NOEQUALS"` parse as claimed. -/
theorem formatEnvVars_spec :
    (∀ l : List String, formatEnvVars (some l) = l.map parseEnvEntry) ∧
    (∀ k v : String, (∀ c ∈ k.data, c ≠ '=') → parseEnvEntry (k ++ "=" ++ v) = ⟨k, v⟩) ∧
    (∀ s : String, (∀ c ∈ s.data, c ≠ '=') → parseEnvEntry s = ⟨s, ""⟩) ∧
    parseEnvEntry "KEY=value" = ⟨"KEY", "value"⟩ ∧
    parseEnvEntry "NOEQUALS" = ⟨"NOEQUALS", ""⟩ := by
  refine ⟨fun l => rfl, ?_, ?_, by decide, by decide⟩
  · intro k v h
    have hdata : (k ++ "=" ++ v).toList = k.data ++ '=' :: v.data := by
      show (k ++ "=" ++ v).data = k.data ++ '=' :: v.data
      rw [String.data_append, String.data_append,
        show ("=" : String).data = ['='] from by decide]
      simp
    simp only [parseEnvEntry, hdata, takeWhile_append_eq k.data v.data h,
      dropWhile_append_eq k.data v.data h]
  · intro s h
    have ht : s.toList.takeWhile (fun c => c ≠ '=') = s.toList := by
      rw [List.takeWhile_eq_self_iff]
      intro c hc
      exact decide_eq_true (h c hc)
    have hd : s.toList.dropWhile (fun c => c ≠ '=') = [] := by
      rw [List.dropWhile_eq_nil_iff]
      intro c hc
      exact decide_eq_true (h c hc)
    simp only [parseEnvEntry, ht, hd]

/-- Witness for `formatEnvVars_spec`: applying the split rule at
`"KEY" ++ "=" ++ "value"` and the no-equals rule at `"NOEQUALS"`. -/
theorem formatEnvVars_spec_witness :
    parseEnvEntry ("KEY" ++ "=" ++ "value") = ⟨"KEY", "value"⟩ ∧
    parseEnvEntry "NOEQUALS" = ⟨"NOEQUALS", ""⟩ :=
  ⟨formatEnvVars_spec.2.1 "KEY" "value" (by decide),
   formatEnvVars_spec.2.2.1 "NOEQUALS" (by decide)⟩
